import Mathlib

/-!
Shallow embedding of `src/main.py` (`create_continents_graph`): a function that
loads a CSV into a numeric table (rows = series, columns = categories), applies
optional legend / x-label remapping and unit normalization, and renders a
multi-line chart.

The embedding starts after `pd.read_csv(csv_file, index_col=0)` followed by
`df.apply(pd.to_numeric, errors="coerce")`: a `Table` models the coerced
dataframe, whose cells are either a rational number or missing (`none`, i.e.
NaN).  Raising a Python exception before `fig.savefig` is modelled by an
`Except.error` result (no output file is written on the error path, since the
only `savefig` call is after every `raise`).  The observable effects of the
matplotlib calls (plotted series, per-series explicit color, tick labels,
y-axis label and limits, title, output path) are collected in `RenderResult`.
-/

/-- Index of the last occurrence of a character in a character list, if any
(the `p.rfind(c)` part of `os.path.splitext`, with `-1` modelled as `none`). -/
def lastIndexOf (cs : List Char) (c : Char) : Option Nat :=
  (cs.enum.filterMap (fun p => if p.2 = c then some p.1 else none)).getLast?

/-- Models `os.path.basename` for POSIX paths: everything after the last
slash (empty when the path ends in a slash). -/
def basename (p : String) : String :=
  String.mk (p.data.foldl (fun acc c => if c = '/' then [] else acc ++ [c]) [])

/-- Models `os.path.splitext(p)[0]` (posixpath): cut at the last dot, provided
that dot lies after the last slash and the file name has a character other
than a leading dot before it (so ".bashrc" keeps its dot). -/
def splitextRoot (p : String) : String :=
  let cs := p.data
  let fnameStart :=
    match lastIndexOf cs '/' with
    | none => 0
    | some s => s + 1
  match lastIndexOf cs '.' with
  | none => p
  | some d =>
    if fnameStart ≤ d ∧ ((cs.drop fnameStart).take (d - fnameStart)).any (fun ch => ch ≠ '.')
    then String.mk (cs.take d)
    else p

/-- The coerced dataframe: ordered column labels, and one entry per row
holding the row key (index label) and the row's cells in column order.
A cell is `none` when the CSV value was missing or failed numeric coercion. -/
structure Table where
  columns : List String
  rows : List (String × List (Option ℚ))
deriving Repr, DecidableEq, Inhabited

/-- The runtime shape of the `custom_x_labels` argument, dispatched on by
`isinstance` in the source: a dict (`remap`), a list/tuple (`explicitList`),
`None` (`absent`), or any other value such as a plain string (`invalid`). -/
inductive XLabels where
  | absent : XLabels
  | remap : List (String × String) → XLabels
  | explicitList : List String → XLabels
  | invalid : String → XLabels
deriving Repr, DecidableEq

/-- The keyword arguments of `create_continents_graph`. -/
structure Config where
  csv_file : String
  custom_title : Option String := none
  custom_x_labels : XLabels := XLabels.absent
  label_map : List (String × String) := []
  y_unit : String := "percent"
deriving Repr, DecidableEq

/-- The two `ValueError`s the function can raise: the `custom_x_labels`
length mismatch (whose f-string message names both the given length and the
column count, carried here as the two naturals) and the empty-table error. -/
inductive RenderError where
  | validationError : Nat → Nat → RenderError
  | emptyDataError : RenderError
deriving Repr, DecidableEq

/-- The observable outcome of a successful render. `seriesColors` records,
per plotted row, the explicit color passed to `ax.plot` (`none` meaning the
source passed no color argument, so matplotlib auto-assigns its default
cycle color). -/
structure RenderResult where
  series : List (String × List (Option ℚ))
  seriesColors : List (String × Option String)
  x_tick_labels : List String
  yLabel : String
  yLo : ℚ
  yHi : ℚ
  title : String
  output_file : String
deriving Repr, DecidableEq, Inhabited

/-- Python dict lookup with fallback to the key itself, as used by
`df.rename`: keys present in the mapping are replaced, others pass through. -/
def lookupD (m : List (String × String)) (k : String) : String :=
  ((m.find? (fun p => p.1 == k)).map Prod.snd).getD k

/-- `if label_map: df = df.rename(index=label_map)` — rename row keys. -/
def applyLabelMap (m : List (String × String)) (t : Table) : Table :=
  if m.isEmpty then t
  else { t with rows := t.rows.map (fun r => (lookupD m r.1, r.2)) }

/-- The `custom_x_labels` handling: a dict renames columns; a list/tuple is
length-checked against the current column count and kept as explicit tick
labels; anything else (None, a plain string, a number, ...) does nothing. -/
def xLabelsStep (x : XLabels) (t : Table) :
    Except RenderError (Table × Option (List String)) :=
  match x with
  | XLabels.remap m =>
    Except.ok ({ t with columns := t.columns.map (lookupD m) }, none)
  | XLabels.explicitList ls =>
    if ls.length ≠ t.columns.length then
      Except.error (RenderError.validationError ls.length t.columns.length)
    else
      Except.ok (t, some ls)
  | _ => Except.ok (t, none)

/-- `df.dropna(how="all")`: drop rows whose cells are all missing. -/
def dropEmptyRows (t : Table) : Table :=
  { t with rows := t.rows.filter (fun r => r.2.any Option.isSome) }

/-- `df.dropna(axis=1, how="all")`: keep the columns that have at least one
non-missing cell among the (remaining) rows, and project every row onto the
kept column positions.  With zero rows every column is vacuously all-missing
and is dropped, as in pandas. -/
def dropEmptyCols (t : Table) : Table :=
  let keep := (List.range t.columns.length).filter
    (fun j => t.rows.any (fun r => (r.2.getD j none).isSome))
  { columns := keep.map (fun j => t.columns.getD j ""),
    rows := t.rows.map (fun r => (r.1, keep.map (fun j => r.2.getD j none))) }

/-- Lines 49-50 of the source: drop all-missing rows, then all-missing
columns. -/
def dropEmpty (t : Table) : Table := dropEmptyCols (dropEmptyRows t)

/-- All non-missing cell values of the table, in reading order. -/
def allValues (t : Table) : List ℚ :=
  (t.rows.map (fun r => r.2.filterMap id)).flatten

/-- `np.nanmax(df.values.astype(float))`, made explicitly partial as the
spec's design note asks: the maximum of the non-missing values, or `none`
when there are none — the case in which the source's `np.nanmax` cannot
produce a number and the surrounding `try/except` swallows the failure. -/
def tableMax (t : Table) : Option ℚ := (allValues t).max?

/-- `df = df / 100.0` and friends: apply `f` to every non-missing cell. -/
def mapCells (f : ℚ → ℚ) (t : Table) : Table :=
  { t with rows := t.rows.map (fun r => (r.1, r.2.map (Option.map f))) }

/-- The literal `1.0 + 1e-9` from line 58 of the source. -/
def epsThreshold : ℚ := 1 + 1 / 1000000000

/-- Lines 55-61: when `y_unit == "proportion"`, compute the maximum
non-missing value and divide every cell by 100 when it exceeds
`1.0 + 1e-9`; when the maximum cannot be computed the `except: pass`
leaves the table unchanged.  Any other `y_unit` skips the step. -/
def rescaleStep (y_unit : String) (t : Table) : Table :=
  if y_unit = "proportion" then
    match tableMax t with
    | some m => if epsThreshold < m then mapCells (fun q => q / 100) t else t
    | none => t
  else t

/-- Python truthiness of the `custom_title` argument (`None` and `""` are
falsy, any non-empty string is truthy). -/
def pyTruthy : Option String → Bool
  | none => false
  | some s => !s.isEmpty

/-- Lines 63-104: the matplotlib section, collected as pure data.  Each row
is plotted with `ax.plot(x, y, marker="o", linewidth=2, label=str(idx))` —
note no color argument — tick labels default to the dataframe's column
names, the y label / limits follow `y_unit`, the title falls back to the
file name stem by truthiness, and the figure is saved to
`<csv_file without extension>_recreated.png`. -/
def finishRender (t : Table) (xt : Option (List String)) (cfg : Config) :
    RenderResult :=
  { series := t.rows
    seriesColors := t.rows.map (fun r => (r.1, (none : Option String)))
    x_tick_labels := xt.getD t.columns
    yLabel := if cfg.y_unit = "proportion" then "Proportion" else "Percent"
    yLo := 0
    yHi := if cfg.y_unit = "proportion" then 1 else 100
    title :=
      if pyTruthy cfg.custom_title then cfg.custom_title.getD ""
      else splitextRoot (basename cfg.csv_file)
    output_file := splitextRoot cfg.csv_file ++ "_recreated.png" }

/-- The whole function body of `create_continents_graph`, in source order:
legend label rename, `custom_x_labels` handling (which can raise), dropping
all-missing rows and columns, the empty check (which can raise), the
proportion rescale, then the plotting section. -/
def create_continents_graph (df : Table) (cfg : Config) :
    Except RenderError RenderResult :=
  match xLabelsStep cfg.custom_x_labels (applyLabelMap cfg.label_map df) with
  | Except.error e => Except.error e
  | Except.ok (t2, xt) =>
    if (dropEmpty t2).rows.isEmpty || (dropEmpty t2).columns.isEmpty then
      Except.error RenderError.emptyDataError
    else
      Except.ok (finishRender (rescaleStep cfg.y_unit (dropEmpty t2)) xt cfg)

/-- The successful result of a render, with a default for the error case
(used only to name concrete successful results in witnesses). -/
def renderOk (df : Table) (cfg : Config) : RenderResult :=
  ((create_continents_graph df cfg).toOption).getD default

/-- Color lookup in a palette, as the spec describes it: the first binding
of the key, or `none` (library default) when the key is absent. -/
def colorLookup (pal : List (String × String)) (k : String) : Option String :=
  (pal.find? (fun p => p.1 == k)).map Prod.snd

/-! Concrete tables and configurations used by the witnesses below. -/

/-- A 1x1 table whose only value is 25 (percent-looking data). -/
def w1t : Table := { columns := ["c"], rows := [("r", [some 25])] }

/-- A proportion-unit configuration. -/
def w1cfg : Config := { csv_file := "cont.csv", y_unit := "proportion" }

/-- The result of rendering `w1t` under `w1cfg`. -/
def w1r : RenderResult :=
  finishRender (rescaleStep "proportion" (dropEmpty w1t)) none w1cfg

/-- A 1x2 table with data in both columns. -/
def w2t : Table := { columns := ["c1", "c2"], rows := [("r", [some 10, some 20])] }

/-- A configuration whose explicit x-label list has length 3. -/
def w2cfg : Config :=
  { csv_file := "cont.csv", custom_x_labels := XLabels.explicitList ["a", "b", "x"] }

/-- A 1x2 table whose second column is entirely missing, so the cleaned
table has exactly 1 column while the raw table has 2. -/
def c3t : Table := { columns := ["a", "b"], rows := [("r1", [some 1, none])] }

/-- An explicit x-label list of length 1 — the cleaned column count of
`c3t`, but not its raw column count. -/
def c3cfg : Config :=
  { csv_file := "x.csv", custom_x_labels := XLabels.explicitList ["X"] }

/-- A 1x1 table whose only cell is missing: nothing survives cleaning. -/
def w4t : Table := { columns := ["c"], rows := [("r", [none])] }

/-- A default (percent) configuration. -/
def w4cfg : Config := { csv_file := "cont.csv" }

/-- A 1x1 table whose single row key is the canonical continent name
"Asia". -/
def w5t : Table := { columns := ["c"], rows := [("Asia", [some 10])] }

/-- A default (percent) configuration. -/
def w5cfg : Config := { csv_file := "cont.csv" }

/-- A configuration whose `custom_x_labels` is present but neither a
list/tuple nor a dict (a plain string at runtime). -/
def c6cfg : Config := { csv_file := "cont.csv", custom_x_labels := XLabels.invalid "V1" }

/-- The value 1 + 1e-10: strictly greater than 1 but inside the source's
epsilon tolerance 1 + 1e-9. -/
def q8 : ℚ := 1 + 1 / 10000000000

/-- A 1x1 table whose only value is `q8`. -/
def c8t : Table := { columns := ["c"], rows := [("r", [some q8])] }

/-- Percent configuration for the round-trip counterexample. -/
def c8p : Config := { csv_file := "cont.csv", y_unit := "percent" }

/-- Proportion configuration for the round-trip counterexample. -/
def c8q : Config := { csv_file := "cont.csv", y_unit := "proportion" }

/-- Result of rendering `c8t` with `y_unit = "percent"`. -/
def c8rp : RenderResult := finishRender (rescaleStep "percent" (dropEmpty c8t)) none c8p

/-- Result of rendering `c8t` with `y_unit = "proportion"`. -/
def c8rq : RenderResult := finishRender (rescaleStep "proportion" (dropEmpty c8t)) none c8q

/-- Base configuration for the amended round-trip witness. -/
def w8cfg : Config := { csv_file := "cont.csv" }

/-- Percent-unit render result over `w1t`. -/
def w8rp : RenderResult :=
  finishRender (rescaleStep "percent" (dropEmpty w1t)) none { w8cfg with y_unit := "percent" }

/-- Proportion-unit render result over `w1t`. -/
def w8rq : RenderResult :=
  finishRender (rescaleStep "proportion" (dropEmpty w1t)) none { w8cfg with y_unit := "proportion" }

/-- A configuration with an unrecognized y_unit string. -/
def w9cfg : Config := { csv_file := "cont.csv", y_unit := "fraction" }

/-- A configuration with an empty-string custom title. -/
def w10cfg : Config := { csv_file := "data/cont_81_.csv", custom_title := some "" }

/-! Helper lemmas shared by the claim theorems. -/

/-- Renaming row keys never touches the column labels. -/
theorem applyLabelMap_columns (m : List (String × String)) (t : Table) :
    (applyLabelMap m t).columns = t.columns := by
  unfold applyLabelMap
  split <;> rfl

/-- Unfolding of the render once the `custom_x_labels` step has succeeded. -/
theorem render_eq_of_xlabels (df : Table) (cfg : Config) (t2 : Table)
    (xt : Option (List String))
    (hx : xLabelsStep cfg.custom_x_labels (applyLabelMap cfg.label_map df) =
      Except.ok (t2, xt)) :
    create_continents_graph df cfg =
      if (dropEmpty t2).rows.isEmpty || (dropEmpty t2).columns.isEmpty then
        Except.error RenderError.emptyDataError
      else
        Except.ok (finishRender (rescaleStep cfg.y_unit (dropEmpty t2)) xt cfg) := by
  unfold create_continents_graph
  rw [hx]

/-- Unfolding of the render when the `custom_x_labels` step raises. -/
theorem render_error_of_xlabels (df : Table) (cfg : Config) (e : RenderError)
    (hx : xLabelsStep cfg.custom_x_labels (applyLabelMap cfg.label_map df) =
      Except.error e) :
    create_continents_graph df cfg = Except.error e := by
  unfold create_continents_graph
  rw [hx]

/-- An explicit x-label list whose length differs from the raw column count
makes the function raise the length-mismatch `ValueError`, which carries
both lengths. -/
theorem xlabels_mismatch_error (df : Table) (cfg : Config) (ls : List String)
    (hx : cfg.custom_x_labels = XLabels.explicitList ls)
    (hlen : ls.length ≠ df.columns.length) :
    create_continents_graph df cfg =
      Except.error (RenderError.validationError ls.length df.columns.length) := by
  apply render_error_of_xlabels
  rw [hx]
  unfold xLabelsStep
  rw [applyLabelMap_columns]
  simp [hlen]

/-- A successful render is the `finishRender` of the rescaled cleaned
table, for some outcome of the x-labels step. -/
theorem render_ok_inversion (df : Table) (cfg : Config) (r : RenderResult)
    (hr : create_continents_graph df cfg = Except.ok r) :
    ∃ t2 xt,
      xLabelsStep cfg.custom_x_labels (applyLabelMap cfg.label_map df) =
        Except.ok (t2, xt) ∧
      r = finishRender (rescaleStep cfg.y_unit (dropEmpty t2)) xt cfg := by
  unfold create_continents_graph at hr
  split at hr
  · exact (Except.noConfusion hr)
  · rename_i t2 xt heq
    split at hr
    · exact (Except.noConfusion hr)
    · injection hr with h
      exact ⟨t2, xt, heq, h.symm⟩

/-! Claim theorems. -/

/-- C2: when `config.custom_x_labels` is an ordered sequence (list/tuple)
whose length differs from the table's column count, the render fails with
the ValidationError carrying both lengths (the source's f-string names
both), and no output image file is written (the error return models the
exception raised before the single `fig.savefig` call). -/
theorem C2_xlabels_length_mismatch_fails (df : Table) (cfg : Config)
    (ls : List String)
    (hx : cfg.custom_x_labels = XLabels.explicitList ls)
    (hlen : ls.length ≠ df.columns.length) :
    create_continents_graph df cfg =
      Except.error (RenderError.validationError ls.length df.columns.length) :=
  xlabels_mismatch_error df cfg ls hx hlen

/-- C2 witness: a 1x2 table with a length-3 explicit label list fails with
the ValidationError naming 3 and 2. -/
theorem C2_witness :
    w2cfg.custom_x_labels = XLabels.explicitList ["a", "b", "x"] ∧
    ["a", "b", "x"].length ≠ w2t.columns.length ∧
    create_continents_graph w2t w2cfg =
      Except.error (RenderError.validationError 3 2) :=
  ⟨rfl, by decide,
    C2_xlabels_length_mismatch_fails w2t w2cfg ["a", "b", "x"] rfl (by decide)⟩

/-- C3 counterexample: the claim says dropping all-missing columns happens
before the x-label length check, so an explicit label list matching the
cleaned column count should succeed.  In the source the check (lines 41-46)
runs before `dropna` (lines 49-50): on a table with one all-missing column
(cleaned column count 1, raw count 2) and a length-1 label list, the render
fails with the length-mismatch ValidationError instead of succeeding. -/
theorem C3_counterexample :
    (dropEmpty c3t).columns.length = 1 ∧
    create_continents_graph c3t c3cfg =
      Except.error (RenderError.validationError 1 2) :=
  ⟨rfl, rfl⟩

/-- C3 amended: the x-label validation runs before the all-missing
rows/columns are dropped, so the explicit sequence is checked against the
raw column count; a sequence whose length equals the cleaned column count
but not the raw one fails with the ValidationError naming both lengths. -/
theorem C3_amended_xlabels_checked_before_drop (df : Table) (cfg : Config)
    (ls : List String)
    (hx : cfg.custom_x_labels = XLabels.explicitList ls)
    (_hclean : ls.length = (dropEmpty df).columns.length)
    (hraw : ls.length ≠ df.columns.length) :
    create_continents_graph df cfg =
      Except.error (RenderError.validationError ls.length df.columns.length) :=
  xlabels_mismatch_error df cfg ls hx hraw

/-- C3 witness: the amended claim at the concrete counterexample input. -/
theorem C3_witness :
    c3cfg.custom_x_labels = XLabels.explicitList ["X"] ∧
    ["X"].length = (dropEmpty c3t).columns.length ∧
    ["X"].length ≠ c3t.columns.length ∧
    create_continents_graph c3t c3cfg =
      Except.error (RenderError.validationError 1 2) :=
  ⟨rfl, rfl, by decide,
    C3_amended_xlabels_checked_before_drop c3t c3cfg ["X"] rfl rfl (by decide)⟩

/-- C4: when the table, after numeric coercion and dropping all-missing
rows and columns, has zero rows or zero columns, the render fails with the
EmptyDataError and no output image file is written (the error return models
the exception raised before `fig.savefig`). -/
theorem C4_empty_after_cleaning_fails (df : Table) (cfg : Config)
    (t2 : Table) (xt : Option (List String))
    (hx : xLabelsStep cfg.custom_x_labels (applyLabelMap cfg.label_map df) =
      Except.ok (t2, xt))
    (hemp : (dropEmpty t2).rows = [] ∨ (dropEmpty t2).columns = []) :
    create_continents_graph df cfg = Except.error RenderError.emptyDataError := by
  rw [render_eq_of_xlabels df cfg t2 xt hx]
  have hb : ((dropEmpty t2).rows.isEmpty || (dropEmpty t2).columns.isEmpty) = true := by
    rcases hemp with h | h <;> simp [h]
  rw [if_pos hb]

/-- C4 witness: a table whose only cell is missing loses its row and its
column during cleaning and the render fails with the EmptyDataError. -/
theorem C4_witness :
    xLabelsStep w4cfg.custom_x_labels (applyLabelMap w4cfg.label_map w4t) =
      Except.ok (w4t, none) ∧
    ((dropEmpty w4t).rows = [] ∨ (dropEmpty w4t).columns = []) ∧
    create_continents_graph w4t w4cfg = Except.error RenderError.emptyDataError :=
  ⟨rfl, Or.inl rfl,
    C4_empty_after_cleaning_fails w4t w4cfg w4t none rfl (Or.inl rfl)⟩

/-- C7: when the maximum non-missing value cannot be computed (the
`np.nanmax` failure swallowed by `try/except`, modelled as `tableMax`
returning `none`), the proportion rescale is skipped silently: the step
returns the table unchanged and, being total, never aborts the render. -/
theorem C7_rescale_skipped_when_max_uncomputable (t : Table)
    (h : tableMax t = none) :
    rescaleStep "proportion" t = t := by
  simp [rescaleStep, h]

/-- C7 witness: on the all-missing table the maximum is uncomputable and
the rescale step leaves the table unchanged. -/
theorem C7_witness :
    tableMax w4t = none ∧ rescaleStep "proportion" w4t = w4t :=
  ⟨rfl, C7_rescale_skipped_when_max_uncomputable w4t rfl⟩

/-- C1: for a proportion-unit invocation whose table — after numeric
coercion and dropping all-missing rows/columns — has a computable maximum
non-missing value `m`, every cell is divided by 100 exactly when `m`
exceeds `1 + 1e-9`, and the plotted values are otherwise the cleaned
values unchanged. -/
theorem C1_proportion_rescale_iff_max_exceeds_threshold (df : Table)
    (cfg : Config) (t2 : Table) (xt : Option (List String)) (m : ℚ)
    (r : RenderResult)
    (hunit : cfg.y_unit = "proportion")
    (hx : xLabelsStep cfg.custom_x_labels (applyLabelMap cfg.label_map df) =
      Except.ok (t2, xt))
    (hm : tableMax (dropEmpty t2) = some m)
    (hr : create_continents_graph df cfg = Except.ok r) :
    (epsThreshold < m →
      r.series = (mapCells (fun q => q / 100) (dropEmpty t2)).rows) ∧
    (¬ epsThreshold < m → r.series = (dropEmpty t2).rows) := by
  obtain ⟨u2, uxt, hux, hform⟩ := render_ok_inversion df cfg r hr
  rw [hx] at hux
  injection hux with hpair
  injection hpair with h2 hxt
  subst h2
  subst hform
  constructor
  · intro hgt
    simp [finishRender, rescaleStep, hunit, hm, hgt]
  · intro hle
    simp [finishRender, rescaleStep, hunit, hm, hle]

/-- C1 witness: a 1x1 table with value 25 under `y_unit = "proportion"`. -/
theorem C1_witness :
    w1cfg.y_unit = "proportion" ∧
    xLabelsStep w1cfg.custom_x_labels (applyLabelMap w1cfg.label_map w1t) =
      Except.ok (w1t, none) ∧
    tableMax (dropEmpty w1t) = some 25 ∧
    create_continents_graph w1t w1cfg = Except.ok w1r ∧
    ((epsThreshold < 25 →
      w1r.series = (mapCells (fun q => q / 100) (dropEmpty w1t)).rows) ∧
    (¬ epsThreshold < 25 → w1r.series = (dropEmpty w1t).rows)) :=
  ⟨rfl, rfl, rfl, rfl,
    C1_proportion_rescale_iff_max_exceeds_threshold w1t w1cfg w1t none 25 w1r
      rfl rfl rfl rfl⟩

/-- C5 counterexample: the claim says series colors are looked up by the
row's original key in a fixed palette containing the canonical continent
names (so "Asia" is in the palette and gets a palette color), with only
absent keys falling back to the library default.  The source's `ax.plot`
call passes no color argument at all, so a table whose row key is "Asia"
still renders with the default auto-assigned color: no palette containing
"Asia" describes the code's color assignment. -/
theorem C5_counterexample :
    ¬ ∃ pal : List (String × String),
      (colorLookup pal "Asia").isSome = true ∧
      ∀ r, create_continents_graph w5t w5cfg = Except.ok r →
        ∀ p ∈ r.seriesColors, p.2 = colorLookup pal p.1 := by
  rintro ⟨pal, hsome, hall⟩
  have h := hall (renderOk w5t w5cfg) rfl ("Asia", none) (List.Mem.head _)
  have h2 : (none : Option String) = colorLookup pal "Asia" := h
  rw [← h2] at hsome
  simp at hsome

/-- C5 amended: the source has no palette; every rendered series receives
the rendering library's default auto-assigned color (no explicit color is
ever passed to `ax.plot`), regardless of the row's key. -/
theorem C5_amended_default_colors (df : Table) (cfg : Config)
    (r : RenderResult)
    (hr : create_continents_graph df cfg = Except.ok r) :
    ∀ p ∈ r.seriesColors, p.2 = none := by
  obtain ⟨t2, xt, hx, hform⟩ := render_ok_inversion df cfg r hr
  subst hform
  intro p hp
  simp only [finishRender] at hp
  rw [List.mem_map] at hp
  obtain ⟨a, ha, hfa⟩ := hp
  rw [← hfa]

/-- C5 witness: the amended claim at the concrete table with row "Asia". -/
theorem C5_witness :
    create_continents_graph w5t w5cfg = Except.ok (renderOk w5t w5cfg) ∧
    (∀ p ∈ (renderOk w5t w5cfg).seriesColors, p.2 = none) :=
  ⟨rfl, C5_amended_default_colors w5t w5cfg (renderOk w5t w5cfg) rfl⟩

/-- C6 counterexample: the claim says a `custom_x_labels` value that is
neither a sequence nor a mapping (here a plain string at runtime) fails
with a ValidationError.  The source's `isinstance` chain has no else
branch, so the value is silently ignored and the render succeeds. -/
theorem C6_counterexample :
    create_continents_graph w5t c6cfg = Except.ok (renderOk w5t c6cfg) := rfl

/-- C6 amended: a `custom_x_labels` value that is neither a list/tuple nor
a dict is silently ignored — the render behaves exactly as if
`custom_x_labels` were absent, and no error is raised. -/
theorem C6_amended_invalid_xlabels_ignored (df : Table) (cfg : Config)
    (s : String) :
    create_continents_graph df { cfg with custom_x_labels := XLabels.invalid s } =
      create_continents_graph df { cfg with custom_x_labels := XLabels.absent } := rfl

/-- C8 counterexample: the claim promises the 1/100 round-trip whenever
the cleaned maximum exceeds 1, but the source only rescales above
`1 + 1e-9`.  With maximum `q8 = 1 + 1e-10` (strictly above 1, inside the
tolerance) the proportion render leaves values unchanged, so its series is
not the percent series divided by 100. -/
theorem C8_counterexample :
    tableMax (dropEmpty c8t) = some q8 ∧ (1 : ℚ) < q8 ∧
    create_continents_graph c8t c8p = Except.ok c8rp ∧
    create_continents_graph c8t c8q = Except.ok c8rq ∧
    c8rq.series ≠
      c8rp.series.map (fun p => (p.1, p.2.map (Option.map (fun q => q / 100)))) := by
  refine ⟨rfl, by norm_num [q8], rfl, rfl, ?_⟩
  have hle : ¬ epsThreshold < q8 := by norm_num [epsThreshold, q8]
  have hq : rescaleStep "proportion" (dropEmpty c8t) = dropEmpty c8t := by
    simp [rescaleStep, show tableMax (dropEmpty c8t) = some q8 from rfl, hle]
  have hprc : rescaleStep "percent" (dropEmpty c8t) = dropEmpty c8t := rfl
  have hde : dropEmpty c8t = c8t := rfl
  simp only [c8rq, c8rp, finishRender]
  rw [hq, hprc, hde]
  intro hcon
  have h2 := congrArg (fun l => (((l.headD ("", [])).2.headD none).getD 0 : ℚ)) hcon
  simp [c8t] at h2
  norm_num [q8] at h2

/-- C8 amended: when the cleaned maximum exceeds `1 + 1e-9` (the source's
actual threshold), the per-cell data plotted under `y_unit = "proportion"`
is exactly 1/100 of the per-cell data plotted for the same source under
`y_unit = "percent"`. -/
theorem C8_amended_round_trip_above_threshold (df : Table) (cfg : Config)
    (t2 : Table) (xt : Option (List String)) (m : ℚ) (rp rq : RenderResult)
    (hx : xLabelsStep cfg.custom_x_labels (applyLabelMap cfg.label_map df) =
      Except.ok (t2, xt))
    (hm : tableMax (dropEmpty t2) = some m)
    (hgt : epsThreshold < m)
    (hp : create_continents_graph df { cfg with y_unit := "percent" } = Except.ok rp)
    (hq : create_continents_graph df { cfg with y_unit := "proportion" } = Except.ok rq) :
    rq.series =
      rp.series.map (fun p => (p.1, p.2.map (Option.map (fun q => q / 100)))) := by
  obtain ⟨u2, uxt, hux, hformp⟩ := render_ok_inversion df _ rp hp
  obtain ⟨v2, vxt, hvx, hformq⟩ := render_ok_inversion df _ rq hq
  dsimp only at hux hvx
  rw [hx] at hux hvx
  injection hux with hpair1
  injection hpair1 with hu2 huxt
  injection hvx with hpair2
  injection hpair2 with hv2 hvxt
  subst hu2
  subst hv2
  subst hformp
  subst hformq
  simp [finishRender, rescaleStep, mapCells, hm, hgt]

/-- C8 witness: the amended round-trip at a 1x1 table with value 25. -/
theorem C8_witness :
    xLabelsStep w8cfg.custom_x_labels (applyLabelMap w8cfg.label_map w1t) =
      Except.ok (w1t, none) ∧
    tableMax (dropEmpty w1t) = some 25 ∧
    epsThreshold < 25 ∧
    create_continents_graph w1t { w8cfg with y_unit := "percent" } = Except.ok w8rp ∧
    create_continents_graph w1t { w8cfg with y_unit := "proportion" } = Except.ok w8rq ∧
    w8rq.series =
      w8rp.series.map (fun p => (p.1, p.2.map (Option.map (fun q => q / 100)))) :=
  ⟨rfl, rfl, by norm_num [epsThreshold], rfl, rfl,
    C8_amended_round_trip_above_threshold w1t w8cfg w1t none 25 w8rp w8rq rfl rfl
      (by norm_num [epsThreshold]) rfl rfl⟩

/-- C9: any `y_unit` other than the exact string "proportion" (for example
"fraction") behaves exactly as "percent": the rescale step never changes
the table, the whole render result is the same as with
`y_unit = "percent"`, and a successful render has y-axis label "Percent"
with bounds [0, 100]; no error is raised for the unrecognized unit. -/
theorem C9_unknown_y_unit_behaves_as_percent (df : Table) (cfg : Config)
    (h : cfg.y_unit ≠ "proportion") :
    (∀ t : Table, rescaleStep cfg.y_unit t = t) ∧
    create_continents_graph df cfg =
      create_continents_graph df { cfg with y_unit := "percent" } ∧
    (∀ r, create_continents_graph df cfg = Except.ok r →
      r.yLabel = "Percent" ∧ r.yLo = 0 ∧ r.yHi = 100) := by
  refine ⟨fun t => by simp [rescaleStep, h], ?_, ?_⟩
  · obtain ⟨f, ti, xl, lm, yu⟩ := cfg
    simp only at h
    unfold create_continents_graph
    dsimp only
    cases hx : xLabelsStep xl (applyLabelMap lm df) with
    | error e => simp [hx]
    | ok pr =>
      obtain ⟨t2, xt⟩ := pr
      simp only [hx]
      by_cases hemp : ((dropEmpty t2).rows.isEmpty || (dropEmpty t2).columns.isEmpty) = true
      · simp [hemp]
      · simp [hemp, finishRender, rescaleStep, h]
  · intro r hr
    obtain ⟨t2, xt, hx, hform⟩ := render_ok_inversion df cfg r hr
    subst hform
    simp [finishRender, h]

/-- C9 witness: `y_unit = "fraction"` on a concrete table. -/
theorem C9_witness :
    w9cfg.y_unit ≠ "proportion" ∧
    ((∀ t : Table, rescaleStep w9cfg.y_unit t = t) ∧
      create_continents_graph w5t w9cfg =
        create_continents_graph w5t { w9cfg with y_unit := "percent" } ∧
      (∀ r, create_continents_graph w5t w9cfg = Except.ok r →
        r.yLabel = "Percent" ∧ r.yLo = 0 ∧ r.yHi = 100)) :=
  ⟨by decide, C9_unknown_y_unit_behaves_as_percent w5t w9cfg (by decide)⟩

/-- C10: whenever `custom_title` is falsy in the Python sense — `None` or
the empty string — the title falls back to the source filename stem
(basename with the extension stripped), because the source tests only
truthiness of the title. -/
theorem C10_falsy_title_falls_back_to_stem (df : Table) (cfg : Config)
    (r : RenderResult)
    (h : pyTruthy cfg.custom_title = false)
    (hr : create_continents_graph df cfg = Except.ok r) :
    r.title = splitextRoot (basename cfg.csv_file) := by
  obtain ⟨t2, xt, hx, hform⟩ := render_ok_inversion df cfg r hr
  subst hform
  simp [finishRender, h]

/-- C10 witness: `custom_title = some ""` (the empty string, present but
falsy) with source path "data/cont_81_.csv" yields the stem "cont_81_". -/
theorem C10_witness :
    pyTruthy w10cfg.custom_title = false ∧
    create_continents_graph w5t w10cfg = Except.ok (renderOk w5t w10cfg) ∧
    (renderOk w5t w10cfg).title = splitextRoot (basename "data/cont_81_.csv") ∧
    (renderOk w5t w10cfg).title = "cont_81_" :=
  ⟨rfl, rfl,
    C10_falsy_title_falls_back_to_stem w5t w10cfg (renderOk w5t w10cfg) rfl rfl,
    rfl⟩
